import Mathlib

/-!
Shallow embedding of the replacement-prediction engine of this repository:
`structured_ai_agent.py` (interval estimation, replacement prediction, due
checks, smart lifespan resolution) and `ai_lifespan_lookup.py` (AI lifespan
lookup with category fallback).

Datetimes are modelled as rational day numbers (a `datetime` is a point on a
day axis; `timedelta.days` is the floor of a day difference).  The external
AI service, the web-search service and `dateutil.parser.parse` are modelled
as oracle parameters: the AI call yields either "no API key configured",
"exception raised" or a raw response string; the permissive date parser is a
total function returning `none` where the Python code would raise.
-/

set_option maxRecDepth 100000

namespace SpareParts

/-- A Python scalar identifier: the code accepts `int` or `str` identifiers
(`SPAREPARTID` / `ROLLINGSTOCKID`), skipping only `None`. -/
inductive Ident where
  | int (n : Int)
  | str (s : String)
deriving DecidableEq, Repr

/-- The identifier as it renders inside a Python f-string such as
`f"Part {part_id}"`. -/
def Ident.toNameString : Ident → String
  | .int n => toString n
  | .str s => s

/-- A record of the `spareparts` table: only the fields the prediction code
reads.  `none` models a missing key (or Python `None`). -/
structure SparePart where
  sparepartid : Option Ident
  rollingstockid : Option Ident
  replacedate : Option String
  note : Option String
  description : Option String
  manufacturer : Option String
deriving DecidableEq, Repr

/-- A record of the `machines` table: only the fields the prediction code
reads. -/
structure Machine where
  rollingstockId : Option Ident
  id : Option String
  name : Option String
  location : Option String
  status : Option String
  producer : Option String
deriving DecidableEq, Repr

/-! ### AI lifespan lookup (`ai_lifespan_lookup.py`) -/

/-- Outcome of one call to the OpenAI chat endpoint, as seen by
`AILifespanLookup.get_ai_lifespan`: no API key configured (`use_openai` is
false), an exception, or a raw response string. -/
inductive AIOutcome where
  | noKey
  | failure
  | response (s : String)

/-- The AI service modelled as a function of the prompt-relevant arguments
(part name, machine name, manufacturer). -/
abbrev AIOracle := String → String → String → AIOutcome

/-- The web-search lifespan service (`get_online_part_lifespan`'s network
side), modelled as a function of (part name, machine name, manufacturer). -/
abbrev OnlineOracle := String → String → String → Option Nat

/-- Python `word in s` substring test. -/
def strIn (word s : String) : Bool :=
  decide (word.toList <:+: s.toList)

/-- Python `any(word in part_name_lower for word in ws)`. -/
def hasAny (part_name_lower : String) (ws : List String) : Bool :=
  ws.any (fun w => strIn w part_name_lower)

/-- `AILifespanLookup._get_fallback_lifespan`: category fallback via an
if/elif chain of keyword substring tests on the lowercased part name. -/
def fallbackLifespan (part_name : String) : Nat :=
  let l := part_name.toLower
  if hasAny l ["air filter", "engine air", "cabin filter"] then 6
  else if hasAny l ["oil filter", "hydraulic filter", "fuel filter"] then 6
  else if hasAny l ["filter", "filtro", "element"] then 6
  else if hasAny l ["bearing", "cuscinetto", "ball bearing", "roller"] then 36
  else if hasAny l ["belt", "cintura", "v-belt", "serpentine", "timing"] then 18
  else if hasAny l ["sensor", "sensore", "temperature", "pressure"] then 30
  else if hasAny l ["motor", "motore", "pump", "pompa"] then 60
  else if hasAny l ["seal", "gasket", "guarnizione", "o-ring"] then 24
  else if hasAny l ["switch", "relay", "contactor", "electrical"] then 36
  else if hasAny l ["hydraulic", "cylinder", "valve", "hose"] then 30
  else 18

/-- Numeric value of a digit string (Python `int` on a digit run). -/
def digitsToNat (cs : List Char) : Nat :=
  cs.foldl (fun a c => a * 10 + (c.toNat - 48)) 0

/-- First maximal run of digits in a character list (Python
`re.findall(r'\d+', s)[0]` when it exists). -/
def firstDigitRun : List Char → Option (List Char)
  | [] => none
  | c :: rest =>
    if c.isDigit then some ((c :: rest).takeWhile Char.isDigit)
    else firstDigitRun rest

/-- `AILifespanLookup._parse_lifespan_response`: lowercase and strip the
response; a pure digit string parses directly, otherwise the first digit run
is taken; no digits yields `None`. -/
def parseLifespanResponse (s : String) : Option Nat :=
  let cleaned := s.toLower.trim
  if !cleaned.isEmpty && cleaned.toList.all Char.isDigit then
    some (digitsToNat cleaned.toList)
  else
    (firstDigitRun cleaned.toList).map digitsToNat

/-- `AILifespanLookup.get_ai_lifespan`: without an API key or on any
exception the category fallback is used; a response is parsed and a truthy
(nonzero) parse is returned, anything else falls back. -/
def getAiLifespan (oracle : AIOracle)
    (part_name machine_name manufacturer : String) : Nat :=
  match oracle part_name machine_name manufacturer with
  | .noKey => fallbackLifespan part_name
  | .failure => fallbackLifespan part_name
  | .response s =>
    match parseLifespanResponse s with
    | some n => if n ≠ 0 then n else fallbackLifespan part_name
    | none => fallbackLifespan part_name

/-! ### Part metadata join and smart lifespan (`structured_ai_agent.py`) -/

/-- The module-level `DEFAULT_PART_LIFESPANS` dict (int keys). -/
def DEFAULT_PART_LIFESPANS : List (Int × Nat) :=
  [(3, 12), (4, 24), (9, 6), (5, 18), (6, 12), (7, 24), (8, 18), (10, 12),
   (11, 6), (12, 24), (13, 18), (14, 12), (15, 24), (16, 18), (17, 12)]

/-- `DEFAULT_PART_LIFESPANS.get(part_id, 12)`: a string identifier never
matches the int-keyed dict. -/
def defaultLifespan : Ident → Nat
  | .int n => ((DEFAULT_PART_LIFESPANS.find? (fun p => p.1 == n)).map (·.2)).getD 12
  | .str _ => 12

/-- First spare-part record whose `SPAREPARTID` equals `pid`
(`next((p for p in spare_parts if p.get('SPAREPARTID') == part_id), None)`). -/
def findPart (parts : List SparePart) (pid : Ident) : Option SparePart :=
  parts.find? (fun r => r.sparepartid == some pid)

/-- Result of `_get_part_info_from_data`. -/
structure PartInfo where
  part_name : String
  machine_name : String
  manufacturer : String
deriving DecidableEq, Repr

/-- `_get_part_info_from_data`: join the first matching spare part with the
first machine whose `rollingstockId` equals the part's `ROLLINGSTOCKID`
(Python `None == None` is true, hence the `Option`-level comparison). -/
def getPartInfo (parts : List SparePart) (machines : List Machine)
    (pid : Ident) : Option PartInfo :=
  (findPart parts pid).map (fun r =>
    let mach := machines.find? (fun m => m.rollingstockId == r.rollingstockid)
    { part_name := r.note.getD ("Part " ++ pid.toNameString)
      machine_name := (mach.map (fun m => m.name.getD "Unknown Machine")).getD "Unknown Machine"
      manufacturer := (mach.map (fun m => m.producer.getD "Unknown")).getD "Unknown" })

/-- `get_smart_part_lifespan`: unknown parts use the static default table;
otherwise the AI lookup's result is returned when truthy, else the default
table. -/
def getSmartPartLifespan (oracle : AIOracle) (parts : List SparePart)
    (machines : List Machine) (pid : Ident) : Nat :=
  match getPartInfo parts machines pid with
  | none => defaultLifespan pid
  | some info =>
    let l := getAiLifespan oracle info.part_name info.machine_name info.manufacturer
    if l ≠ 0 then l else defaultLifespan pid

/-- `get_online_part_lifespan`: `None` for unknown parts, otherwise the
web-search pipeline's answer. -/
def getOnlinePartLifespan (online : OnlineOracle) (parts : List SparePart)
    (machines : List Machine) (pid : Ident) : Option Nat :=
  (getPartInfo parts machines pid).bind
    (fun i => online i.part_name i.machine_name i.manufacturer)

/-! ### Interval estimation and prediction (`structured_ai_agent.py`) -/

/-- `dateutil.parser.parse(s, fuzzy=True)` modelled as a total oracle:
`none` where the Python call would raise. Datetimes are rational day
numbers. -/
abbrev Parse := String → Option ℚ

/-- The event-extraction filter shared by `predict_part_replacements` and
`_calculate_part_lifespans_from_data`: skip `None` identifiers, skip falsy
or `"NULL"` dates, skip unparseable dates. A valid record yields its
`((equipment_id, part_id), datetime)` event. -/
def validEvent (parse : Parse) (r : SparePart) : Option ((Ident × Ident) × ℚ) :=
  match r.sparepartid, r.rollingstockid with
  | some pid, some eid =>
    match r.replacedate with
    | none => none
    | some s =>
      if s = "" ∨ s = "NULL" then none
      else (parse s).map (fun d => ((eid, pid), d))
  | _, _ => none

/-- Append `v` to the group of key `k`, preserving Python dict insertion
order (`defaultdict(list)` semantics). -/
def insertGrouped {K V : Type} [DecidableEq K] :
    List (K × List V) → K → V → List (K × List V)
  | [], k, v => [(k, [v])]
  | (k', vs) :: rest, k, v =>
    if k' = k then (k', vs ++ [v]) :: rest
    else (k', vs) :: insertGrouped rest k v

/-- Group a key/value stream into insertion-ordered lists per key, as a
`defaultdict(list)` filled by a loop. -/
def groupPairs {K V : Type} [DecidableEq K] (l : List (K × V)) : List (K × List V) :=
  l.foldl (fun acc kv => insertGrouped acc kv.1 kv.2) []

/-- The `replacements` dict of `predict_part_replacements`: parsed dates
grouped by `(equipment_id, part_id)`. -/
def collectPairs (parse : Parse) (parts : List SparePart) :
    List ((Ident × Ident) × List ℚ) :=
  groupPairs (parts.filterMap (validEvent parse))

/-- The `part_intervals` stream of `_calculate_part_lifespans_from_data`:
each valid event keyed by part id carrying `(equipment_id, datetime)`. -/
def partEvents (parse : Parse) (parts : List SparePart) :
    List (Ident × (Ident × ℚ)) :=
  (parts.filterMap (validEvent parse)).map (fun x => (x.1.2, (x.1.1, x.2)))

/-- Python `dates.sort()` (ascending; ties keep equal values, so the result
list is canonical). -/
def sortDates (l : List ℚ) : List ℚ :=
  List.insertionSort (· ≤ ·) l

/-- Consecutive `(dates[i] - dates[i-1]).days` values of a date list:
`timedelta.days` floors the day difference. -/
def diffsFloor : List ℚ → List ℤ
  | a :: b :: rest => ⌊b - a⌋ :: diffsFloor (b :: rest)
  | _ => []

/-- Python `sum(intervals) / len(intervals)` over int intervals. -/
def meanQ (l : List ℤ) : ℚ :=
  (l.map (fun z : ℤ => (z : ℚ))).sum / l.length

/-- `_calculate_part_lifespans_from_data`: per part id, pool the consecutive
intervals of every equipment with at least two dates, and keep the mean when
the pool is nonempty. -/
def partLifespans (parse : Parse) (parts : List SparePart) : List (Ident × ℚ) :=
  (groupPairs (partEvents parse parts)).filterMap (fun g =>
    let allIntervals :=
      ((groupPairs g.2).map (fun eg =>
        if 2 ≤ eg.2.length then diffsFloor (sortDates eg.2) else [])).flatten
    if allIntervals.isEmpty then none else some (g.1, meanQ allIntervals))

/-- `part_lifespans.get(part_id)` (without the default). -/
def lookupLifespan (ls : List (Ident × ℚ)) (pid : Ident) : Option ℚ :=
  (ls.find? (fun x => x.1 == pid)).map (·.2)

/-- The machine snapshot attached to a prediction (`machine_data`). -/
structure MachineSnap where
  machine_id : Option String
  machine_name : Option String
  location : Option String
  status : Option String
  producer : Option String
deriving DecidableEq, Repr

/-- The part snapshot attached to a prediction (`part_data`). -/
structure PartSnap where
  part_name : Option String
  description : Option String
  manufacturer : Option String
deriving DecidableEq, Repr

/-- One record of the `predictions` list of `predict_part_replacements`,
with the dict keys as field names; `none` snapshots model the empty dicts
used when a join misses. -/
structure Prediction where
  equipment_id : Ident
  part_id : Ident
  last_replacement : ℚ
  predicted_next_replacement : ℚ
  average_interval_days : ℚ
  prediction_method : String
  due : Bool
  lifespan_months : Nat
  machine : Option MachineSnap
  part : Option PartSnap
deriving DecidableEq, Repr

/-- The body of the per-pair loop of `predict_part_replacements`. -/
def predictionFor (oracle : AIOracle) (now : ℚ) (parts : List SparePart)
    (machines : List Machine) (lifespans : List (Ident × ℚ))
    (g : (Ident × Ident) × List ℚ) : Prediction :=
  let eid := g.1.1
  let pid := g.1.2
  let sorted := sortDates g.2
  let last := sorted.getLastD 0
  let avg : ℚ :=
    if 2 ≤ g.2.length then meanQ (diffsFloor sorted)
    else (lookupLifespan lifespans pid).getD 365
  let method :=
    if 2 ≤ g.2.length then "equipment_specific_history" else "part_type_average"
  let predicted := last + avg
  let mach := machines.find? (fun m => m.rollingstockId == some eid)
  { equipment_id := eid
    part_id := pid
    last_replacement := last
    predicted_next_replacement := predicted
    average_interval_days := avg
    prediction_method := method
    due := decide (predicted ≤ now)
    lifespan_months := getSmartPartLifespan oracle parts machines pid
    machine := mach.map (fun m => ⟨m.id, m.name, m.location, m.status, m.producer⟩)
    part := (findPart parts pid).map (fun r => ⟨r.note, r.description, r.manufacturer⟩) }

/-- `predict_part_replacements`: one prediction per grouped
`(equipment_id, part_id)` pair, in dict insertion order. -/
def predictPartReplacements (parse : Parse) (oracle : AIOracle) (now : ℚ)
    (parts : List SparePart) (machines : List Machine) : List Prediction :=
  (collectPairs parse parts).map
    (predictionFor oracle now parts machines (partLifespans parse parts))

/-! ### Serialization of a prediction record -/

/-- A JSON-like value, enough to state which keys the prediction dict
carries.  A serialized date stands for its day number (`strftime("%Y-%m-%d")`
truncates the datetime to its calendar day). -/
inductive JVal where
  | jstr (s : String)
  | jint (n : Int)
  | jrat (q : ℚ)
  | jbool (b : Bool)
  | jnull
  | jobj (fields : List (String × JVal))
deriving Repr

/-- An identifier as a JSON scalar. -/
def Ident.toJ : Ident → JVal
  | .int n => .jint n
  | .str s => .jstr s

/-- An optional string as a JSON scalar. -/
def optJ : Option String → JVal
  | some s => .jstr s
  | none => .jnull

/-- The machine snapshot dict. -/
def MachineSnap.toJ (m : MachineSnap) : JVal :=
  .jobj [("machine_id", optJ m.machine_id), ("machine_name", optJ m.machine_name),
         ("location", optJ m.location), ("status", optJ m.status),
         ("producer", optJ m.producer)]

/-- The part snapshot dict. -/
def PartSnap.toJ (p : PartSnap) : JVal :=
  .jobj [("part_name", optJ p.part_name), ("description", optJ p.description),
         ("manufacturer", optJ p.manufacturer)]

/-- The dict literal appended to `predictions`
(`structured_ai_agent.py` lines 613-624), key for key. -/
def Prediction.serialize (p : Prediction) : List (String × JVal) :=
  [("equipment_id", p.equipment_id.toJ),
   ("part_id", p.part_id.toJ),
   ("last_replacement", .jint ⌊p.last_replacement⌋),
   ("predicted_next_replacement", .jint ⌊p.predicted_next_replacement⌋),
   ("average_interval_days", .jrat p.average_interval_days),
   ("prediction_method", .jstr p.prediction_method),
   ("due", .jbool p.due),
   ("lifespan_months", .jint p.lifespan_months),
   ("machine", match p.machine with | some m => m.toJ | none => .jobj []),
   ("part", match p.part with | some pt => pt.toJ | none => .jobj [])]

/-! ### Due part checks (`get_due_part_checks`) -/

/-- One record of the `due_checks` list, with the dict keys as field names;
`last_replacement` carries the raw `REPLACEDATE` string. -/
structure DueCheck where
  equipment_id : Int
  part_id : Int
  last_replacement : Option String
  expected_next_check : ℤ
  lifespan_months : Nat
  lifespan_source : String
deriving DecidableEq, Repr

/-- The body of the per-record loop of `get_due_part_checks`: records with
non-`int` identifiers are skipped; `next_check` is the parsed date plus
`lifespan_months*30` days, rendered (and re-parsed for the comparison) as
its calendar day; the record is kept exactly when `now` has reached it. -/
def dueCheckFor (parse : Parse) (oracle : AIOracle) (online : OnlineOracle)
    (now : ℚ) (parts : List SparePart) (machines : List Machine)
    (r : SparePart) : Option DueCheck :=
  match r.sparepartid, r.rollingstockid with
  | some (.int pid), some (.int eid) =>
    let lifespan := getSmartPartLifespan oracle parts machines (.int pid)
    let expected : Option ℤ :=
      match r.replacedate with
      | none => none
      | some s =>
        if s = "" ∨ s = "NULL" then none
        else if lifespan = 0 then none
        else (parse s).map (fun d => ⌊d + (lifespan : ℚ) * 30⌋)
    let src :=
      match getOnlinePartLifespan online parts machines (.int pid) with
      | some n => if n ≠ 0 then "online" else "default"
      | none => "default"
    match expected with
    | none => none
    | some e =>
      if (e : ℚ) ≤ now then
        some ⟨eid, pid, r.replacedate, e, lifespan, src⟩
      else none
  | _, _ => none

/-- `get_due_part_checks`: the per-record results in input order. -/
def getDuePartChecks (parse : Parse) (oracle : AIOracle) (online : OnlineOracle)
    (now : ℚ) (parts : List SparePart) (machines : List Machine) : List DueCheck :=
  parts.filterMap (dueCheckFor parse oracle online now parts machines)

/-! ### Calendar arithmetic for concrete scenarios -/

/-- Day number of a Gregorian calendar date, days since 1970-01-01
(the standard civil-from-date computation); used only at concrete dates. -/
def dateToDays (y m d : Int) : Int :=
  let y2 := if m ≤ 2 then y - 1 else y
  let era := (if 0 ≤ y2 then y2 else y2 - 399) / 400
  let yoe := y2 - era * 400
  let mp := if 2 < m then m - 3 else m + 9
  let doy := (153 * mp + 2) / 5 + d - 1
  let doe := yoe * 365 + yoe / 4 - yoe / 100 + doy
  era * 146097 + doe - 719468

/-! ### Helper lemmas -/

/-- Every branch of the category fallback yields at least one month. -/
theorem fallbackLifespan_pos (s : String) : 1 ≤ fallbackLifespan s := by
  unfold fallbackLifespan
  dsimp only
  repeat' split
  all_goals omega

/-- The static default table yields at least one month. -/
theorem defaultLifespan_pos (pid : Ident) : 1 ≤ defaultLifespan pid := by
  cases pid with
  | str s => simp [defaultLifespan]
  | int n =>
    show 1 ≤ ((DEFAULT_PART_LIFESPANS.find? (fun p => p.1 == n)).map (fun x => x.2)).getD 12
    cases h : DEFAULT_PART_LIFESPANS.find? (fun p => p.1 == n) with
    | none => simp
    | some pr =>
      have hm : pr ∈ DEFAULT_PART_LIFESPANS := List.mem_of_find?_eq_some h
      have hall : ∀ q ∈ DEFAULT_PART_LIFESPANS, 1 ≤ q.2 := by decide
      simpa using hall pr hm

/-- The AI lifespan lookup yields at least one month on every outcome. -/
theorem getAiLifespan_pos (oracle : AIOracle) (pn mn mf : String) :
    1 ≤ getAiLifespan oracle pn mn mf := by
  unfold getAiLifespan
  cases oracle pn mn mf with
  | noKey => exact fallbackLifespan_pos pn
  | failure => exact fallbackLifespan_pos pn
  | response s =>
    show 1 ≤ (match parseLifespanResponse s with
      | some n => if n ≠ 0 then n else fallbackLifespan pn
      | none => fallbackLifespan pn)
    cases parseLifespanResponse s with
    | none => exact fallbackLifespan_pos pn
    | some n =>
      show 1 ≤ if n ≠ 0 then n else fallbackLifespan pn
      by_cases hn : n = 0
      · rw [if_neg (by simp [hn])]
        exact fallbackLifespan_pos pn
      · rw [if_pos hn]
        omega

/-- The smart lifespan resolver yields at least one month on every input. -/
theorem getSmartPartLifespan_pos (oracle : AIOracle) (parts : List SparePart)
    (machines : List Machine) (pid : Ident) :
    1 ≤ getSmartPartLifespan oracle parts machines pid := by
  unfold getSmartPartLifespan
  cases getPartInfo parts machines pid with
  | none => exact defaultLifespan_pos pid
  | some info =>
    dsimp only
    split
    · next h => omega
    · exact defaultLifespan_pos pid

/-- Floor-difference distance bound: truncating both endpoints of
`last + avg` to whole days moves the difference by less than one day. -/
theorem floor_shift_close (l a : ℚ) :
    |((⌊l + a⌋ : ℚ) - (⌊l⌋ : ℚ)) - a| < 1 := by
  have h1 : ((⌊l + a⌋ : ℤ) : ℚ) ≤ l + a := Int.floor_le _
  have h2 : l + a < (⌊l + a⌋ : ℚ) + 1 := Int.lt_floor_add_one _
  have h3 : ((⌊l⌋ : ℤ) : ℚ) ≤ l := Int.floor_le _
  have h4 : l < (⌊l⌋ : ℚ) + 1 := Int.lt_floor_add_one _
  rw [abs_lt]
  constructor <;> linarith

/-- `diffsFloor` of a list with at most one element is empty, and only
those. -/
theorem diffsFloor_eq_nil_iff (l : List ℚ) : diffsFloor l = [] ↔ l.length ≤ 1 := by
  match l with
  | [] => simp [diffsFloor]
  | [a] => simp [diffsFloor]
  | a :: b :: r => simp [diffsFloor]

/-- The sort used by the engine yields an ascending list. -/
theorem sortDates_sorted (l : List ℚ) : (sortDates l).Sorted (· ≤ ·) :=
  List.sorted_insertionSort _ l

/-- Sorting preserves the number of dates. -/
theorem sortDates_length (l : List ℚ) : (sortDates l).length = l.length :=
  List.length_insertionSort _ l

/-- Consecutive floored differences of an ascending list are nonnegative. -/
theorem diffsFloor_nonneg : ∀ {l : List ℚ}, l.Sorted (· ≤ ·) →
    ∀ z ∈ diffsFloor l, 0 ≤ z
  | [], _ => by simp [diffsFloor]
  | [a], _ => by simp [diffsFloor]
  | a :: b :: r, h => by
    have hab : a ≤ b := (List.sorted_cons.mp h).1 b (by simp)
    have htail : (b :: r).Sorted (· ≤ ·) := (List.sorted_cons.mp h).2
    intro z hz
    have hz2 : z = ⌊b - a⌋ ∨ z ∈ diffsFloor (b :: r) := List.mem_cons.mp hz
    rcases hz2 with rfl | hz2
    · exact Int.floor_nonneg.mpr (by linarith)
    · exact diffsFloor_nonneg htail z hz2

/-- A mean of nonnegative intervals is nonnegative. -/
theorem meanQ_nonneg {l : List ℤ} (h : ∀ z ∈ l, 0 ≤ z) : 0 ≤ meanQ l := by
  unfold meanQ
  apply div_nonneg
  · apply List.sum_nonneg
    intro x hx
    obtain ⟨w, hw, hwx⟩ := List.exists_of_mem_map hx
    rw [← hwx]
    exact_mod_cast h w hw
  · exact Nat.cast_nonneg _

/-- Every pooled part-type average is nonnegative. -/
theorem partLifespans_nonneg (parse : Parse) (parts : List SparePart) :
    ∀ x ∈ partLifespans parse parts, 0 ≤ x.2 := by
  intro x hx
  unfold partLifespans at hx
  rcases List.mem_filterMap.mp hx with ⟨g, _, hg⟩
  dsimp only at hg
  split at hg
  · exact absurd hg (by simp)
  · rcases Option.some_inj.mp hg with rfl
    dsimp only
    apply meanQ_nonneg
    intro z hz
    rcases List.mem_flatten.mp hz with ⟨piece, hpiece, hzp⟩
    rcases List.mem_map.mp hpiece with ⟨eg, _, rfl⟩
    split at hzp
    · exact diffsFloor_nonneg (sortDates_sorted eg.2) z hzp
    · exact absurd hzp (by simp)

/-- The interval selected by the per-pair loop is always nonnegative. -/
theorem predictionFor_avg_nonneg (oracle : AIOracle) (now : ℚ)
    (parse : Parse) (parts : List SparePart) (machines : List Machine)
    (g : (Ident × Ident) × List ℚ) :
    0 ≤ (predictionFor oracle now parts machines (partLifespans parse parts) g).average_interval_days := by
  unfold predictionFor
  dsimp only
  split
  · exact meanQ_nonneg (diffsFloor_nonneg (sortDates_sorted g.2))
  · cases h : lookupLifespan (partLifespans parse parts) g.1.2 with
    | none => norm_num
    | some q =>
      have : (partLifespans parse parts).find? (fun x => x.1 == g.1.2) = some (g.1.2, q) ∨
          ∃ y, (partLifespans parse parts).find? (fun x => x.1 == g.1.2) = some y ∧ y.2 = q := by
        unfold lookupLifespan at h
        cases hf : (partLifespans parse parts).find? (fun x => x.1 == g.1.2) with
        | none => rw [hf] at h; simp at h
        | some y => rw [hf] at h; simp at h; exact Or.inr ⟨y, rfl, h⟩
      rcases this with hf | ⟨y, hf, hy⟩
      · have := partLifespans_nonneg parse parts _ (List.mem_of_find?_eq_some hf)
        simpa [h] using this
      · have := partLifespans_nonneg parse parts y (List.mem_of_find?_eq_some hf)
        simp only [Option.getD_some, h]
        rw [hy] at this
        simpa using this

/-! ### Concrete data for witnesses and counterexamples -/

/-- A date-parse oracle for the spec scenario `[2022-01-01, 2022-07-01,
2023-01-01]`, day numbers 0, 181, 365. -/
def exParse : Parse := fun s =>
  if s = "D0" then some 0 else if s = "D181" then some 181
  else if s = "D365" then some 365 else none

/-- An agent without an AI credential. -/
def exOracle : AIOracle := fun _ _ _ => .noKey

/-- A web-search service that never finds anything. -/
def exOnline : OnlineOracle := fun _ _ _ => none

/-- A replacement event of pair (1, 1) named "Fuel filter". -/
def exEvent (d : String) : SparePart :=
  ⟨some (.int 1), some (.int 1), some d, some "Fuel filter", none, none⟩

/-- Three replacements of the same pair, 181 and 184 days apart. -/
def exParts : List SparePart := [exEvent "D0", exEvent "D181", exEvent "D365"]

/-- An evaluation instant past the predicted next replacement. -/
def exNow : ℚ := 600

/-- The single prediction computed from `exParts`. -/
def exPrediction : Prediction :=
  { equipment_id := .int 1, part_id := .int 1, last_replacement := 365,
    predicted_next_replacement := 1095/2, average_interval_days := 365/2,
    prediction_method := "equipment_specific_history", due := true,
    lifespan_months := 6, machine := none,
    part := some ⟨some "Fuel filter", none, none⟩ }

/-- A parse oracle under which two events of one pair share a date. -/
def dupParse : Parse := fun s => if s = "DUP" then some 0 else none

/-- Two replacements of the same pair on the same day. -/
def dupParts : List SparePart :=
  [⟨some (.int 1), some (.int 1), some "DUP", none, none, none⟩,
   ⟨some (.int 1), some (.int 1), some "DUP", none, none, none⟩]

/-- The prediction computed from `dupParts`: a zero average interval. -/
def dupPrediction : Prediction :=
  { equipment_id := .int 1, part_id := .int 1, last_replacement := 0,
    predicted_next_replacement := 0, average_interval_days := 0,
    prediction_method := "equipment_specific_history", due := true,
    lifespan_months := 18, machine := none,
    part := some ⟨none, none, none⟩ }

/-! ### Claim theorems -/

/-- C4: the lifespan resolution cascade is a total function: for every
part id, `get_smart_part_lifespan` returns an integer ≥ 1 whatever the AI
configuration or outcome (no credential, an exception, or an arbitrary —
possibly unparseable — response); no stage failure reaches the caller. -/
theorem C4_lifespan_cascade_total (oracle : AIOracle) (parts : List SparePart)
    (machines : List Machine) (pid : Ident) :
    1 ≤ getSmartPartLifespan oracle parts machines pid :=
  getSmartPartLifespan_pos oracle parts machines pid

/-- C2: every emitted prediction satisfies `predicted_next_replacement =
last_replacement + average_interval_days`, is due exactly when `now` has
reached that exact instant, and its day-truncated reported difference
deviates from `average_interval_days` by less than one day. -/
theorem C2_prediction_date_arithmetic (parse : Parse) (oracle : AIOracle)
    (now : ℚ) (parts : List SparePart) (machines : List Machine)
    (p : Prediction) (hp : p ∈ predictPartReplacements parse oracle now parts machines) :
    p.predicted_next_replacement = p.last_replacement + p.average_interval_days ∧
    (p.due = true ↔ p.predicted_next_replacement ≤ now) ∧
    |((⌊p.predicted_next_replacement⌋ : ℚ) - (⌊p.last_replacement⌋ : ℚ)) -
        p.average_interval_days| < 1 := by
  obtain ⟨g, hg, rfl⟩ := List.exists_of_mem_map hp
  exact ⟨rfl, decide_eq_true_iff, floor_shift_close _ _⟩

/-- Witness for C2 at the concrete `exParts` run. -/
theorem C2_witness :
    exPrediction ∈ predictPartReplacements exParse exOracle exNow exParts [] ∧
    (exPrediction.predicted_next_replacement =
        exPrediction.last_replacement + exPrediction.average_interval_days ∧
      (exPrediction.due = true ↔ exPrediction.predicted_next_replacement ≤ exNow) ∧
      |((⌊exPrediction.predicted_next_replacement⌋ : ℚ) -
          (⌊exPrediction.last_replacement⌋ : ℚ)) -
          exPrediction.average_interval_days| < 1) :=
  ⟨of_decide_eq_true (by with_unfolding_all rfl),
   C2_prediction_date_arithmetic exParse exOracle exNow exParts [] exPrediction
     (of_decide_eq_true (by with_unfolding_all rfl))⟩

/-- C5 counterexample: two replacements of one pair on the same calendar
day yield `average_interval_days = 0`, so the claimed strict positivity
fails on the code (sorted dates are non-decreasing, not strictly
increasing). -/
theorem C5_counterexample :
    ¬ (∀ p ∈ predictPartReplacements dupParse exOracle 100 dupParts [],
        0 < p.average_interval_days) :=
  of_decide_eq_true (by with_unfolding_all rfl)

/-- C5 amended: for every prediction produced by
`predict_part_replacements`, `average_interval_days` is nonnegative
(intervals come from ascending sorted dates, but equal consecutive dates
make zero possible). -/
theorem C5_amended_interval_nonneg (parse : Parse) (oracle : AIOracle)
    (now : ℚ) (parts : List SparePart) (machines : List Machine)
    (p : Prediction) (hp : p ∈ predictPartReplacements parse oracle now parts machines) :
    0 ≤ p.average_interval_days := by
  obtain ⟨g, hg, rfl⟩ := List.exists_of_mem_map hp
  exact predictionFor_avg_nonneg oracle now parse parts machines g

/-- Witness for the amended C5 at the concrete duplicate-date run. -/
theorem C5_amended_witness :
    dupPrediction ∈ predictPartReplacements dupParse exOracle 100 dupParts [] ∧
    0 ≤ dupPrediction.average_interval_days :=
  ⟨of_decide_eq_true (by with_unfolding_all rfl),
   C5_amended_interval_nonneg dupParse exOracle 100 dupParts [] dupPrediction
     (of_decide_eq_true (by with_unfolding_all rfl))⟩

/-- C10 counterexample: an emitted prediction record does not carry the
claimed `machine_snapshot`/`part_snapshot` keys. -/
theorem C10_counterexample :
    ∃ p ∈ predictPartReplacements exParse exOracle exNow exParts [],
      p.serialize.map Prod.fst ≠
        ["equipment_id", "part_id", "last_replacement",
         "predicted_next_replacement", "average_interval_days",
         "prediction_method", "due", "lifespan_months",
         "machine_snapshot", "part_snapshot"] :=
  ⟨exPrediction, of_decide_eq_true (by with_unfolding_all rfl),
   of_decide_eq_true (by with_unfolding_all rfl)⟩

/-- C10 amended: every emitted prediction record carries exactly the keys
equipment_id, part_id, last_replacement, predicted_next_replacement,
average_interval_days, prediction_method, due, lifespan_months, machine,
part — the snapshots are serialized under `machine` and `part`. -/
theorem C10_amended_serialization_keys (parse : Parse) (oracle : AIOracle)
    (now : ℚ) (parts : List SparePart) (machines : List Machine)
    (p : Prediction) (_hp : p ∈ predictPartReplacements parse oracle now parts machines) :
    p.serialize.map Prod.fst =
      ["equipment_id", "part_id", "last_replacement",
       "predicted_next_replacement", "average_interval_days",
       "prediction_method", "due", "lifespan_months", "machine", "part"] := rfl

/-- Witness for the amended C10 at the concrete `exParts` run. -/
theorem C10_amended_witness :
    exPrediction ∈ predictPartReplacements exParse exOracle exNow exParts [] ∧
    exPrediction.serialize.map Prod.fst =
      ["equipment_id", "part_id", "last_replacement",
       "predicted_next_replacement", "average_interval_days",
       "prediction_method", "due", "lifespan_months", "machine", "part"] :=
  ⟨of_decide_eq_true (by with_unfolding_all rfl),
   C10_amended_serialization_keys exParse exOracle exNow exParts [] exPrediction
     (of_decide_eq_true (by with_unfolding_all rfl))⟩

/-- The pooled interval list of a part-type group is nonempty exactly when
some equipment contributes at least two dates. -/
theorem flatten_intervals_ne_nil_iff (egs : List (Ident × List ℚ)) :
    ¬ ((egs.map (fun eg =>
        if 2 ≤ eg.2.length then diffsFloor (sortDates eg.2) else [])).flatten = [])
      ↔ ∃ eg ∈ egs, 2 ≤ eg.2.length := by
  rw [List.flatten_eq_nil_iff]
  constructor
  · intro h
    push_neg at h
    obtain ⟨piece, hmem, hne⟩ := h
    obtain ⟨eg, heg, rfl⟩ := List.exists_of_mem_map hmem
    refine ⟨eg, heg, ?_⟩
    by_contra hlt
    rw [if_neg hlt] at hne
    exact hne rfl
  · rintro ⟨eg, heg, h2⟩ hall
    have hp := hall _ (List.mem_map_of_mem _ heg)
    rw [if_pos h2] at hp
    have hlen : (sortDates eg.2).length = eg.2.length := sortDates_length _
    have hle := (diffsFloor_eq_nil_iff _).mp hp
    omega

/-- The part-type average exists for `pid` exactly when the grouped event
stream has a `pid` group in which some equipment carries ≥ 2 dates. -/
theorem lookupLifespan_isSome_iff (parse : Parse) (parts : List SparePart)
    (pid : Ident) :
    (lookupLifespan (partLifespans parse parts) pid).isSome ↔
      ∃ pg ∈ groupPairs (partEvents parse parts), pg.1 = pid ∧
        ∃ eg ∈ groupPairs pg.2, 2 ≤ eg.2.length := by
  unfold lookupLifespan
  rw [Option.isSome_map', List.find?_isSome]
  constructor
  · rintro ⟨x, hx, hpx⟩
    obtain ⟨pg, hpg, hfx⟩ := List.mem_filterMap.mp hx
    dsimp only at hfx
    split at hfx
    · exact absurd hfx (by simp)
    · next hne =>
      refine ⟨pg, hpg, ?_, ?_⟩
      · have hx1 : x.1 = pg.1 := by
          rcases Option.some_inj.mp hfx with rfl
          rfl
        have : (x.1 == pid) = true := hpx
        rw [hx1] at this
        exact (beq_iff_eq).mp this
      · have hne2 : ¬ ((((groupPairs pg.2)).map (fun eg =>
            if 2 ≤ eg.2.length then diffsFloor (sortDates eg.2) else [])).flatten = []) := by
          simpa [List.isEmpty_iff] using hne
        exact (flatten_intervals_ne_nil_iff (groupPairs pg.2)).mp hne2
  · rintro ⟨pg, hpg, hpid, eg, heg, h2⟩
    have hne : ¬ ((((groupPairs pg.2)).map (fun eg =>
        if 2 ≤ eg.2.length then diffsFloor (sortDates eg.2) else [])).flatten = []) :=
      (flatten_intervals_ne_nil_iff (groupPairs pg.2)).mpr ⟨eg, heg, h2⟩
    refine ⟨(pg.1, meanQ (((groupPairs pg.2)).map (fun eg =>
        if 2 ≤ eg.2.length then diffsFloor (sortDates eg.2) else [])).flatten), ?_, ?_⟩
    · apply List.mem_filterMap.mpr
      refine ⟨pg, hpg, ?_⟩
      dsimp only
      rw [if_neg (by simpa [List.isEmpty_iff] using hne)]
    · simpa using hpid

/-- C1: a pair with at least two valid parsed dates is predicted from its
own history: `average_interval_days` is the mean of the consecutive
day differences of its ascending-sorted dates and `prediction_method` is
"equipment_specific_history". -/
theorem C1_pair_specific_mean (parse : Parse) (oracle : AIOracle) (now : ℚ)
    (parts : List SparePart) (machines : List Machine)
    (g : (Ident × Ident) × List ℚ) (hg : g ∈ collectPairs parse parts)
    (h2 : 2 ≤ g.2.length) :
    predictionFor oracle now parts machines (partLifespans parse parts) g ∈
      predictPartReplacements parse oracle now parts machines ∧
    (predictionFor oracle now parts machines (partLifespans parse parts) g).average_interval_days
      = meanQ (diffsFloor (sortDates g.2)) ∧
    (predictionFor oracle now parts machines (partLifespans parse parts) g).prediction_method
      = "equipment_specific_history" := by
  refine ⟨List.mem_map_of_mem _ hg, ?_, ?_⟩
  · show (if 2 ≤ g.2.length then meanQ (diffsFloor (sortDates g.2))
        else (lookupLifespan (partLifespans parse parts) g.1.2).getD 365)
      = meanQ (diffsFloor (sortDates g.2))
    rw [if_pos h2]
  · show (if 2 ≤ g.2.length then "equipment_specific_history" else "part_type_average")
      = "equipment_specific_history"
    rw [if_pos h2]

/-- The grouped pair of the `exParts` run. -/
def exGroup : (Ident × Ident) × List ℚ := ((.int 1, .int 1), [0, 181, 365])

/-- Witness for C1 at the concrete `exParts` run (intervals 181 and 184,
mean 365/2). -/
theorem C1_witness :
    exGroup ∈ collectPairs exParse exParts ∧ 2 ≤ exGroup.2.length ∧
    (predictionFor exOracle exNow exParts [] (partLifespans exParse exParts) exGroup ∈
        predictPartReplacements exParse exOracle exNow exParts [] ∧
      (predictionFor exOracle exNow exParts [] (partLifespans exParse exParts)
          exGroup).average_interval_days
        = meanQ (diffsFloor (sortDates exGroup.2)) ∧
      (predictionFor exOracle exNow exParts [] (partLifespans exParse exParts)
          exGroup).prediction_method
        = "equipment_specific_history") :=
  ⟨of_decide_eq_true (by with_unfolding_all rfl),
   of_decide_eq_true (by with_unfolding_all rfl),
   C1_pair_specific_mean exParse exOracle exNow exParts [] exGroup
     (of_decide_eq_true (by with_unfolding_all rfl))
     (of_decide_eq_true (by with_unfolding_all rfl))⟩

/-- C3: a pair with exactly one valid parsed date is predicted with
`prediction_method = "part_type_average"`; its interval is the pooled
part-type average when the pool exists (some equipment group for that part
id has ≥ 2 events) and the static 365-day default otherwise. -/
theorem C3_single_event_fallback (parse : Parse) (oracle : AIOracle) (now : ℚ)
    (parts : List SparePart) (machines : List Machine)
    (g : (Ident × Ident) × List ℚ) (hg : g ∈ collectPairs parse parts)
    (h1 : g.2.length = 1) :
    predictionFor oracle now parts machines (partLifespans parse parts) g ∈
      predictPartReplacements parse oracle now parts machines ∧
    (predictionFor oracle now parts machines (partLifespans parse parts) g).prediction_method
      = "part_type_average" ∧
    (predictionFor oracle now parts machines (partLifespans parse parts) g).average_interval_days
      = (lookupLifespan (partLifespans parse parts) g.1.2).getD 365 ∧
    ((lookupLifespan (partLifespans parse parts) g.1.2).isSome ↔
      ∃ pg ∈ groupPairs (partEvents parse parts), pg.1 = g.1.2 ∧
        ∃ eg ∈ groupPairs pg.2, 2 ≤ eg.2.length) := by
  have hn2 : ¬ 2 ≤ g.2.length := by omega
  refine ⟨List.mem_map_of_mem _ hg, ?_, ?_, lookupLifespan_isSome_iff parse parts g.1.2⟩
  · show (if 2 ≤ g.2.length then "equipment_specific_history" else "part_type_average")
      = "part_type_average"
    rw [if_neg hn2]
  · show (if 2 ≤ g.2.length then meanQ (diffsFloor (sortDates g.2))
        else (lookupLifespan (partLifespans parse parts) g.1.2).getD 365)
      = (lookupLifespan (partLifespans parse parts) g.1.2).getD 365
    rw [if_neg hn2]

/-- Events for the C3 witness: equipment 1 replaced part 1 twice, equipment
2 replaced the same part type once. -/
def c3Parts : List SparePart :=
  [exEvent "D0", exEvent "D181",
   ⟨some (.int 1), some (.int 2), some "D365", some "Fuel filter", none, none⟩]

/-- The single-event pair of the C3 witness. -/
def c3Group : (Ident × Ident) × List ℚ := ((.int 2, .int 1), [365])

/-- Witness for C3: the one-date pair of equipment 2 uses the pooled
interval of equipment 1 (181 days). -/
theorem C3_witness :
    c3Group ∈ collectPairs exParse c3Parts ∧ c3Group.2.length = 1 ∧
    (predictionFor exOracle exNow c3Parts [] (partLifespans exParse c3Parts) c3Group ∈
        predictPartReplacements exParse exOracle exNow c3Parts [] ∧
      (predictionFor exOracle exNow c3Parts [] (partLifespans exParse c3Parts)
          c3Group).prediction_method = "part_type_average" ∧
      (predictionFor exOracle exNow c3Parts [] (partLifespans exParse c3Parts)
          c3Group).average_interval_days
        = (lookupLifespan (partLifespans exParse c3Parts) c3Group.1.2).getD 365 ∧
      ((lookupLifespan (partLifespans exParse c3Parts) c3Group.1.2).isSome ↔
        ∃ pg ∈ groupPairs (partEvents exParse c3Parts), pg.1 = c3Group.1.2 ∧
          ∃ eg ∈ groupPairs pg.2, 2 ≤ eg.2.length)) :=
  ⟨of_decide_eq_true (by with_unfolding_all rfl),
   of_decide_eq_true (by with_unfolding_all rfl),
   C3_single_event_fallback exParse exOracle exNow c3Parts [] c3Group
     (of_decide_eq_true (by with_unfolding_all rfl))
     (of_decide_eq_true (by with_unfolding_all rfl))⟩

/-! ### C6: the category fallback as an ordered classification table -/

/-- Modelled from the spec's words (§4.2 stage 3, §9): an ordered list of
(category, months, keyword set) entries evaluated top-to-bottom, first
match wins; the filter category's keyword set is the union of the three
filter keyword groups, all mapping to 6 months. -/
def specFallbackTable : List (String × Nat × List String) :=
  [("filter", 6,
     ["air filter", "engine air", "cabin filter"] ++
       ["oil filter", "hydraulic filter", "fuel filter"] ++
       ["filter", "filtro", "element"]),
   ("bearing", 36, ["bearing", "cuscinetto", "ball bearing", "roller"]),
   ("belt", 18, ["belt", "cintura", "v-belt", "serpentine", "timing"]),
   ("sensor", 30, ["sensor", "sensore", "temperature", "pressure"]),
   ("motor", 60, ["motor", "motore", "pump", "pompa"]),
   ("seal", 24, ["seal", "gasket", "guarnizione", "o-ring"]),
   ("electrical", 36, ["switch", "relay", "contactor", "electrical"]),
   ("hydraulic", 30, ["hydraulic", "cylinder", "valve", "hose"])]

/-- First-match evaluation of the ordered table; the general/default
category maps to 18 months. -/
def firstMatchMonths (lowered : String) : List (String × Nat × List String) → Nat
  | [] => 18
  | c :: rest => if hasAny lowered c.2.2 then c.2.1 else firstMatchMonths lowered rest

/-- Modelled from the spec: classification by the ordered category table. -/
def specFallbackLifespan (part_name : String) : Nat :=
  firstMatchMonths part_name.toLower specFallbackTable

/-- Keyword search distributes over a concatenated keyword set. -/
theorem hasAny_append (l : String) (xs ys : List String) :
    hasAny l (xs ++ ys) = (hasAny l xs || hasAny l ys) :=
  List.any_append

/-- Merging three if-branches with one value into a disjunction. -/
theorem ite_or3 (a b c : Bool) (v r : Nat) :
    (if a then v else if b then v else if c then v else r)
      = (if (a || (b || c)) then v else r) := by
  cases a <;> cases b <;> cases c <;> simp

/-- C6: the category fallback equals first-match evaluation of the ordered
(filter, bearing, belt, sensor, motor, seal, electrical, hydraulic,
general) table with months 6/36/18/30/60/24/36/30/18, and "Fuel filter"
classifies as filter (6 months), never general. -/
theorem C6_category_fallback_priority :
    (∀ name, fallbackLifespan name = specFallbackLifespan name) ∧
    fallbackLifespan "Fuel filter" = 6 ∧ specFallbackLifespan "Fuel filter" = 6 := by
  refine ⟨?_, ?_, ?_⟩
  · intro name
    unfold fallbackLifespan specFallbackLifespan specFallbackTable
    dsimp only
    simp only [firstMatchMonths]
    rw [hasAny_append, hasAny_append, ite_or3, Bool.or_assoc]
  · exact of_decide_eq_true (by with_unfolding_all rfl)
  · exact of_decide_eq_true (by with_unfolding_all rfl)

/-! ### C7: due part checks -/

/-- C7: a spare-part record with int identifiers and a parseable
non-sentinel date is emitted by `get_due_part_checks` exactly when `now`
has reached `last_replacement + lifespan_months*30` days (truncated to its
calendar day), and the emitted record carries that next-check day and the
resolved lifespan. -/
theorem C7_lifespan_due_scan (parse : Parse) (oracle : AIOracle)
    (online : OnlineOracle) (now : ℚ) (parts : List SparePart)
    (machines : List Machine) (r : SparePart) (pid eid : Int) (s : String)
    (d : ℚ) (hpid : r.sparepartid = some (.int pid))
    (heid : r.rollingstockid = some (.int eid)) (hs : r.replacedate = some s)
    (hs1 : s ≠ "") (hs2 : s ≠ "NULL") (hd : parse s = some d) :
    ((dueCheckFor parse oracle online now parts machines r).isSome ↔
      ((⌊d + (getSmartPartLifespan oracle parts machines (.int pid) : ℚ) * 30⌋ : ℚ) ≤ now)) ∧
    (∀ c, dueCheckFor parse oracle online now parts machines r = some c →
      c.equipment_id = eid ∧ c.part_id = pid ∧
      c.expected_next_check
        = ⌊d + (getSmartPartLifespan oracle parts machines (.int pid) : ℚ) * 30⌋ ∧
      c.lifespan_months = getSmartPartLifespan oracle parts machines (.int pid)) := by
  have hl : ¬ getSmartPartLifespan oracle parts machines (.int pid) = 0 := by
    have := getSmartPartLifespan_pos oracle parts machines (.int pid); omega
  unfold dueCheckFor
  rw [hpid, heid, hs]
  dsimp only
  rw [if_neg (not_or.mpr ⟨hs1, hs2⟩), if_neg hl, hd]
  dsimp only [Option.map_some']
  by_cases hle :
      ((⌊d + (getSmartPartLifespan oracle parts machines (.int pid) : ℚ) * 30⌋ : ℚ) ≤ now)
  · rw [if_pos hle]
    refine ⟨by simp [hle], ?_⟩
    intro c hc
    cases Option.some_inj.mp hc
    exact ⟨rfl, rfl, rfl, rfl⟩
  · rw [if_neg hle]
    refine ⟨by simp [hle], ?_⟩
    intro c hc
    exact absurd hc (by simp)

/-- Date-parse oracle for the spec's due-check scenario, on a day axis with
origin 2023-01-01 (the `dateToDays` conjuncts of the witness anchor the
axis to the calendar). -/
def c7Parse : Parse := fun s =>
  if s = "2023-01-01" then some (0 : ℚ) else none

/-- The scenario part: last replaced 2023-01-01, named so the category
fallback resolves 6 months. -/
def c7Part : SparePart :=
  ⟨some (.int 1), some (.int 1), some "2023-01-01", some "Fuel filter", none, none⟩

/-- The scenario instant 2023-08-01: 212 days after 2023-01-01. -/
def c7Now : ℚ := 212

/-- Witness for C7 at the spec scenario: lifespan 6 months, next check
6*30 = 180 days after 2023-01-01, which is 2023-06-30, already passed on
2023-08-01 (212 days after the origin), so the record is emitted. -/
theorem C7_witness :
    getSmartPartLifespan exOracle [c7Part] [] (.int 1) = 6 ∧
    dateToDays 2023 1 1 + 6 * 30 = dateToDays 2023 6 30 ∧
    dateToDays 2023 8 1 - dateToDays 2023 1 1 = 212 ∧
    ((dueCheckFor c7Parse exOracle exOnline c7Now [c7Part] [] c7Part).isSome ↔
      ((⌊(0 : ℚ) +
          (getSmartPartLifespan exOracle [c7Part] [] (.int 1) : ℚ) * 30⌋ : ℚ) ≤ c7Now)) ∧
    (dueCheckFor c7Parse exOracle exOnline c7Now [c7Part] [] c7Part).isSome = true :=
  ⟨of_decide_eq_true (by with_unfolding_all rfl),
   by decide, by decide,
   (C7_lifespan_due_scan c7Parse exOracle exOnline c7Now [c7Part] [] c7Part 1 1
     "2023-01-01" (0 : ℚ) rfl rfl rfl
     (of_decide_eq_true (by with_unfolding_all rfl))
     (of_decide_eq_true (by with_unfolding_all rfl))
     (of_decide_eq_true (by with_unfolding_all rfl))).1,
   of_decide_eq_true (by with_unfolding_all rfl)⟩

/-! ### C8: malformed dates are skipped -/

/-- A record whose date is the NULL sentinel, empty, or unparseable yields
no event. -/
theorem validEvent_malformed (parse : Parse) (e : SparePart)
    (hmal : e.replacedate = some "NULL" ∨ e.replacedate = some "" ∨
      (∃ s, e.replacedate = some s ∧ parse s = none)) :
    validEvent parse e = none := by
  unfold validEvent
  cases hpid : e.sparepartid with
  | none => rfl
  | some pid =>
    cases heid : e.rollingstockid with
    | none => rfl
    | some eid =>
      dsimp only
      rcases hmal with h | h | ⟨s, hs, hps⟩
      · rw [h]; dsimp only; rw [if_pos (Or.inr rfl)]
      · rw [h]; dsimp only; rw [if_pos (Or.inl rfl)]
      · rw [hs]; dsimp only
        by_cases hse : s = "" ∨ s = "NULL"
        · rw [if_pos hse]
        · rw [if_neg hse, hps]; rfl

/-- C8: an event with a "NULL", empty, or unparseable replacement date is
excluded from both the per-pair history and the part-type interval pool —
the remaining batch is processed unchanged — and any pair left with a
single valid date takes the part-type/static fallback method. -/
theorem C8_malformed_dates_skipped (parse : Parse) (l1 l2 : List SparePart)
    (e : SparePart)
    (hmal : e.replacedate = some "NULL" ∨ e.replacedate = some "" ∨
      (∃ s, e.replacedate = some s ∧ parse s = none)) :
    collectPairs parse (l1 ++ e :: l2) = collectPairs parse (l1 ++ l2) ∧
    partLifespans parse (l1 ++ e :: l2) = partLifespans parse (l1 ++ l2) ∧
    (∀ (oracle : AIOracle) (now : ℚ) (machines : List Machine)
        (g : (Ident × Ident) × List ℚ),
      g ∈ collectPairs parse (l1 ++ e :: l2) → g.2.length = 1 →
      (predictionFor oracle now (l1 ++ e :: l2) machines
          (partLifespans parse (l1 ++ e :: l2)) g).prediction_method
        = "part_type_average") := by
  have hv : validEvent parse e = none := validEvent_malformed parse e hmal
  have hfm : (l1 ++ e :: l2).filterMap (validEvent parse)
      = (l1 ++ l2).filterMap (validEvent parse) := by
    rw [List.filterMap_append, List.filterMap_append, List.filterMap_cons_none hv]
  refine ⟨?_, ?_, ?_⟩
  · unfold collectPairs
    rw [hfm]
  · unfold partLifespans partEvents
    rw [hfm]
  · intro oracle now machines g hg hlen
    show (if 2 ≤ g.2.length then "equipment_specific_history" else "part_type_average")
      = "part_type_average"
    rw [if_neg (by omega)]

/-- A record carrying the NULL sentinel date. -/
def c8Bad : SparePart := ⟨some (.int 1), some (.int 1), some "NULL", none, none, none⟩

/-- Witness for C8: appending the NULL-dated record to the `exParts` batch
changes neither the pair histories nor the part-type pool. -/
theorem C8_witness :
    (c8Bad.replacedate = some "NULL" ∨ c8Bad.replacedate = some "" ∨
      (∃ s, c8Bad.replacedate = some s ∧ exParse s = none)) ∧
    (collectPairs exParse (exParts ++ c8Bad :: []) = collectPairs exParse (exParts ++ []) ∧
      partLifespans exParse (exParts ++ c8Bad :: []) = partLifespans exParse (exParts ++ []) ∧
      (∀ (oracle : AIOracle) (now : ℚ) (machines : List Machine)
          (g : (Ident × Ident) × List ℚ),
        g ∈ collectPairs exParse (exParts ++ c8Bad :: []) → g.2.length = 1 →
        (predictionFor oracle now (exParts ++ c8Bad :: []) machines
            (partLifespans exParse (exParts ++ c8Bad :: [])) g).prediction_method
          = "part_type_average")) :=
  ⟨Or.inl rfl, C8_malformed_dates_skipped exParse exParts [] c8Bad (Or.inl rfl)⟩

/-! ### C9: the lifespan_source label -/

/-- Parse oracle for the C9 run. -/
def c9Parse : Parse := fun s => if s = "2020-01-01" then some 0 else none

/-- A part whose name matches no category keyword (fallback 18 months). -/
def c9Part : SparePart :=
  ⟨some (.int 1), some (.int 1), some "2020-01-01", some "Widget Blade", none, none⟩

/-- A web-search service that reports 24 months for everything. -/
def c9Online : OnlineOracle := fun _ _ _ => some 24

/-- The due-check record the C9 run emits. -/
def c9Check : DueCheck := ⟨1, 1, some "2020-01-01", 540, 18, "online"⟩

/-- C9 counterexample: the emitted record is labeled `lifespan_source =
"online"` although its `lifespan_months` figure (18) is the category
fallback of the AI cascade, not the online lookup's 24 — the label reports
a separate lookup, not the source of the figure. -/
theorem C9_counterexample :
    c9Check ∈ getDuePartChecks c9Parse exOracle c9Online 600 [c9Part] [] ∧
    c9Check.lifespan_source = "online" ∧ c9Check.lifespan_months = 18 ∧
    getOnlinePartLifespan c9Online [c9Part] [] (.int 1) = some 24 ∧
    getSmartPartLifespan exOracle [c9Part] [] (.int 1)
      = fallbackLifespan "Widget Blade" ∧
    c9Check.lifespan_months ≠ 24 :=
  ⟨of_decide_eq_true (by with_unfolding_all rfl), rfl, rfl,
   of_decide_eq_true (by with_unfolding_all rfl),
   of_decide_eq_true (by with_unfolding_all rfl),
   of_decide_eq_true (by with_unfolding_all rfl)⟩

/-- C9 amended: in every emitted due-check record, `lifespan_months` is the
smart-cascade figure for the part, while `lifespan_source` is "online"
exactly when the separate online lookup returns a nonzero value — the two
are computed independently. -/
theorem C9_amended_source_label (parse : Parse) (oracle : AIOracle)
    (online : OnlineOracle) (now : ℚ) (parts : List SparePart)
    (machines : List Machine) (r : SparePart) (c : DueCheck)
    (hc : dueCheckFor parse oracle online now parts machines r = some c) :
    c.lifespan_months = getSmartPartLifespan oracle parts machines (.int c.part_id) ∧
    (c.lifespan_source = "online" ↔
      ∃ n, getOnlinePartLifespan online parts machines (.int c.part_id) = some n ∧ n ≠ 0) := by
  unfold dueCheckFor at hc
  cases hsp : r.sparepartid with
  | none => rw [hsp] at hc; simp at hc
  | some i =>
    cases i with
    | str s0 => rw [hsp] at hc; simp at hc
    | int pid =>
      cases heid : r.rollingstockid with
      | none => rw [hsp, heid] at hc; simp at hc
      | some j =>
        cases j with
        | str t0 => rw [hsp, heid] at hc; simp at hc
        | int eid =>
          rw [hsp, heid] at hc
          dsimp only at hc
          cases hrd : r.replacedate with
          | none => rw [hrd] at hc; simp at hc
          | some s =>
            rw [hrd] at hc
            dsimp only at hc
            by_cases hse : s = "" ∨ s = "NULL"
            · rw [if_pos hse] at hc; simp at hc
            · rw [if_neg hse] at hc
              by_cases hl0 : getSmartPartLifespan oracle parts machines (.int pid) = 0
              · rw [if_pos hl0] at hc; simp at hc
              · rw [if_neg hl0] at hc
                cases hp : parse s with
                | none => rw [hp] at hc; simp at hc
                | some d =>
                  rw [hp] at hc
                  dsimp only [Option.map_some'] at hc
                  by_cases hle : ((⌊d + (getSmartPartLifespan oracle parts
                      machines (.int pid) : ℚ) * 30⌋ : ℚ) ≤ now)
                  · rw [if_pos hle] at hc
                    cases Option.some_inj.mp hc
                    refine ⟨rfl, ?_⟩
                    cases ho : getOnlinePartLifespan online parts machines (.int pid) with
                    | none =>
                      dsimp only
                      constructor
                      · intro h
                        exact absurd h (by decide)
                      · rintro ⟨n, hn, _⟩
                        exact absurd hn (by simp)
                    | some n =>
                      dsimp only
                      by_cases hn : n = 0
                      · rw [if_neg (by simp [hn])]
                        constructor
                        · intro h
                          exact absurd h (by decide)
                        · rintro ⟨m, hm, hm0⟩
                          cases Option.some_inj.mp hm
                          exact absurd hn hm0
                      · rw [if_pos hn]
                        exact ⟨fun _ => ⟨n, rfl, hn⟩, fun _ => rfl⟩
                  · rw [if_neg hle] at hc
                    simp at hc

/-- Witness for the amended C9 at the concrete run. -/
theorem C9_amended_witness :
    dueCheckFor c9Parse exOracle c9Online 600 [c9Part] [] c9Part = some c9Check ∧
    (c9Check.lifespan_months
        = getSmartPartLifespan exOracle [c9Part] [] (.int c9Check.part_id) ∧
      (c9Check.lifespan_source = "online" ↔
        ∃ n, getOnlinePartLifespan c9Online [c9Part] [] (.int c9Check.part_id)
            = some n ∧ n ≠ 0)) :=
  ⟨of_decide_eq_true (by with_unfolding_all rfl),
   C9_amended_source_label c9Parse exOracle c9Online 600 [c9Part] [] c9Part c9Check
     (of_decide_eq_true (by with_unfolding_all rfl))⟩

end SpareParts
